import Mathlib

/-!
Shallow embedding, in Lean 4, of the client-side logic of the
diabetes-prediction web form.  Two implementations live side by side in the
repository and both are embedded here:

* the framework-based submit handler `handleSubmit` of `app/page.tsx`
  (BMI computation, payload assembly, fetch-response handling), and
* the script-based multi-step form controller of `static/js/app.js`
  (`showSection`, `updateButtons`, `validateCurrentSection`, and the
  next/previous click handlers).

JavaScript numbers are modelled as exact rationals (`ℚ`); a value whose
`parseFloat` yields `NaN` is modelled by `Option.none`.  Code that would
throw a `TypeError` (indexing past the end of the section `NodeList`) is
modelled with `Option`-returning functions.
-/

namespace DiabetesWeb

/-! ## Framework-based submit handler (`app/page.tsx`, `handleSubmit`) -/

/-- Model of a JavaScript value stored in the `formData` record that
`handleSubmit` receives.  The handler inspects a value only through
`parseFloat`, so a value is represented by that parse result: `num q` is a
value on which `parseFloat` returns the finite float `q`, and `nonNum` is a
value on which `parseFloat` returns `NaN`.  Every other field is passed
through to the payload unchanged, so this representation loses nothing. -/
inductive JsVal where
  | num (q : ℚ)
  | nonNum
  deriving DecidableEq

/-- Reading `formData[k]` on a plain JS object: the value at the first
matching key, or `undefined` (here `none`) when the key is absent. -/
def getKey : List (String × JsVal) → String → Option JsVal
  | [], _ => none
  | p :: rest, k => if p.1 = k then some p.2 else getKey rest k

/-- The JS statement `delete formData[k]`. -/
def delKey : List (String × JsVal) → String → List (String × JsVal)
  | [], _ => []
  | p :: rest, k => if p.1 = k then delKey rest k else p :: delKey rest k

/-- The JS assignment `formData[k] = v`: overwrite the existing binding or
append a fresh one. -/
def setKey : List (String × JsVal) → String → JsVal → List (String × JsVal)
  | [], k, v => [(k, v)]
  | p :: rest, k, v => if p.1 = k then (k, v) :: rest else p :: setKey rest k v

/-- `parseFloat(formData[k])`: `parseFloat(undefined)` is `NaN`, and a stored
value parses according to its `JsVal` representation. -/
def parseOf : Option JsVal → Option ℚ
  | some (JsVal.num q) => some q
  | _ => none

/-- The JS comparison `x > 0` where `x` may be `NaN` (`NaN > 0` is false). -/
def jsPos : Option ℚ → Bool
  | some q => decide (0 < q)
  | none => false

/-- `Number(x.toFixed(1))`: round to one decimal place.  `toFixed` rounds
half away from zero; for the positive values produced here that is
`⌊x * 10 + 1/2⌋ / 10` in exact arithmetic. -/
def roundTo1 (x : ℚ) : ℚ := ((x * 10 + 1/2).floor : ℤ) / 10

/-- The BMI expression of `handleSubmit`:
`Number((weight / (heightInMeters * heightInMeters)).toFixed(1))`
with `heightInMeters = height / 100`. -/
def bmiValue (height weight : ℚ) : ℚ :=
  roundTo1 (weight / ((height / 100) * (height / 100)))

/-- The payload-assembly phase of `handleSubmit` (`page.tsx` lines 62-72):
parse `height_cm` and `weight_kg`; if both are positive, store the rounded
BMI under key `BMI`; then unconditionally delete `height_cm` and
`weight_kg`.  The resulting record is what `JSON.stringify` serialises into
the body of the `POST /api/predict` request. -/
def handleSubmitPayload (fd : List (String × JsVal)) : List (String × JsVal) :=
  let fd1 :=
    match parseOf (getKey fd "height_cm"), parseOf (getKey fd "weight_kg") with
    | some h, some w =>
      if 0 < h ∧ 0 < w then setKey fd "BMI" (JsVal.num (bmiValue h w)) else fd
    | _, _ => fd
  delKey (delKey fd1 "height_cm") "weight_kg"

/-- A settled `fetch` response: its numeric status, and the result of
`response.json()` (`none` when the body is not valid JSON, in which case
`await response.json()` throws).  The parsed body is kept abstract (`α`),
matching the opaque `PredictionResult`. -/
structure FetchResponse (α : Type) where
  status : Nat
  jsonBody : Option α

/-- `response.ok` of the Fetch API: the status is in the range 200-299. -/
def respOk (status : Nat) : Bool := decide (200 ≤ status) && decide (status < 300)

/-- Observable outcome of one run of `handleSubmit` after the fetch settles:
the `results` state (null = `none` unless `setResults(data)` ran), whether
the failure `alert` fired, whether `console.error` fired, and the final
`isLoading` flag. -/
structure SubmitOutcome (α : Type) where
  results : Option α
  alerted : Bool
  logged : Bool
  isLoading : Bool
  deriving DecidableEq

/-- The response-handling phase of `handleSubmit` (`page.tsx` lines 74-91).
The argument is `none` when `fetch` itself rejected (network error); any
thrown error — network failure, the explicit `throw` on a non-ok status, or
a JSON parse failure — lands in the `catch` block, which logs and alerts;
`setResults` runs only on an ok status with a parsed body. -/
def handleSubmitResponse {α : Type} (outcome : Option (FetchResponse α)) :
    SubmitOutcome α :=
  match outcome with
  | none => ⟨none, true, true, false⟩
  | some resp =>
    if respOk resp.status then
      match resp.jsonBody with
      | some d => ⟨some d, false, false, false⟩
      | none => ⟨none, true, true, false⟩
    else ⟨none, true, true, false⟩

/-! ## Script-based controller (`static/js/app.js`) -/

/-- A DOM form element as seen by `validateCurrentSection`: its tag name
(`"INPUT"`, `"SELECT"`, ...), its `type` property (`"radio"`, `"number"`,
`"text"`, ...), its `name` and `value` attributes, its `checked` flag, and
whether it carries the `required` attribute. -/
structure Element where
  tag : String
  type : String
  name : String
  value : String
  checked : Bool
  required : Bool
  deriving DecidableEq

/-- The radio-group check of `validateCurrentSection`:
`current.querySelectorAll('input[name=...]')` restricted to the section,
then `Array.from(radios).some(r => r.checked)`. -/
def radioGroupChecked (sec : List Element) (groupName : String) : Bool :=
  (sec.filter fun r => decide (r.tag = "INPUT" ∧ r.name = groupName)).any fun r => r.checked

/-- The JS test `!el.value.trim()`: the trimmed value is the empty string
exactly when every character of the value is whitespace. -/
def trimmedEmpty (s : String) : Bool :=
  s.data.all fun c => c.isWhitespace

/-- The per-element body of the `forEach` in `validateCurrentSection`: radio
elements require a checked member of their name group; number inputs and
select elements require a non-blank trimmed value; every other element type
is not checked at all. -/
def elementOk (sec : List Element) (el : Element) : Bool :=
  if el.type = "radio" then
    radioGroupChecked sec el.name
  else if el.type = "number" ∨ el.tag = "SELECT" then
    !trimmedEmpty el.value
  else
    true

/-- `validateCurrentSection` applied to the elements of the active section:
`isValid` starts `true` and is set to `false` whenever a required element
fails its check, which is exactly the conjunction over the `[required]`
elements. -/
def validateSection (sec : List Element) : Bool :=
  (sec.filter fun el => el.required).all fun el => elementOk sec el

/-- A required element whose type is none of the ones the validator looks at
(not a radio, not a number input, not a select). -/
def isTextType (el : Element) : Bool :=
  decide (el.type ≠ "radio" ∧ el.type ≠ "number" ∧ el.tag ≠ "SELECT")

/-- One `.form-section` node: its form elements plus whether it currently
carries the `hidden` class. -/
structure FormSection where
  elements : List Element
  hidden : Bool
  deriving DecidableEq

/-- The mutable state of `app.js`: the static `NodeList` of sections (with
their `hidden` classes) and the global `currentSection` counter.  JS numbers
are modelled as integers here since the counter only ever holds integers,
but `Int` (not `Nat`) so that the decrement in the previous-button handler
is faithful. -/
structure AppState where
  sections : List FormSection
  currentSection : Int
  deriving DecidableEq

/-- The loop `sections.forEach(s => s.classList.add("hidden"))` followed by
`sections[n].classList.remove("hidden")`: section `i` ends hidden iff
`i ≠ n`.  The `i` argument is the index of the head of the list. -/
def applyHidden : List FormSection → Nat → Int → List FormSection
  | [], _, _ => []
  | s :: rest, i, n => { s with hidden := decide ((i : Int) ≠ n) } :: applyHidden rest (i + 1) n

/-- `showSection(n)`: hide every section, unhide section `n`, and set
`currentSection = n` (then update buttons and the progress bar, which are
pure functions of the new state).  When `n` is out of range,
`sections[n].classList` throws a `TypeError`, modelled as `none`. -/
def showSection (st : AppState) (n : Int) : Option AppState :=
  if 0 ≤ n ∧ n < (st.sections.length : Int) then
    some { sections := applyHidden st.sections 0 n, currentSection := n }
  else
    none

/-- The three `style.display` values written by `updateButtons`, as a
function of `currentSection` and `sections.length`. -/
structure ButtonDisplays where
  prev : String
  next : String
  submit : String
  deriving DecidableEq

/-- `updateButtons`: previous shown only after section 0, next shown only
before the last section, submit shown only at the last section. -/
def updateButtons (cs : Int) (total : Nat) : ButtonDisplays where
  prev := if 0 < cs then "inline-flex" else "none"
  next := if cs < (total : Int) - 1 then "inline-flex" else "none"
  submit := if cs = (total : Int) - 1 then "inline-flex" else "none"

/-- `sections[currentSection]`, the active section read by
`validateCurrentSection`; `none` models the `undefined` lookup that would
make the validator throw. -/
def sectionAt (st : AppState) : Option FormSection :=
  if 0 ≤ st.currentSection then st.sections.get? st.currentSection.toNat else none

/-- The next-button click handler: validate the active section; on success
`currentSection++` then `showSection(currentSection)`; on failure leave the
state alone and fire the alert.  The boolean of the result records whether
the alert fired. -/
def nextClick (st : AppState) : Option (AppState × Bool) :=
  (sectionAt st).bind fun sec =>
    if validateSection sec.elements then
      (showSection st (st.currentSection + 1)).map fun st2 => (st2, false)
    else
      some (st, true)

/-- The previous-button click handler: `currentSection--`, clamp at 0, then
`showSection(currentSection)`. -/
def prevClick (st : AppState) : Option AppState :=
  let c := st.currentSection - 1
  showSection st (if c < 0 then 0 else c)

/-- The navigator invariant stated by the spec:
`0 ≤ currentSection < section count`. -/
def NavInv (st : AppState) : Prop :=
  0 ≤ st.currentSection ∧ st.currentSection < (st.sections.length : Int)

instance (st : AppState) : Decidable (NavInv st) := by
  unfold NavInv
  infer_instance

/-- Rewrite the `value` of every required text-type element of a section by
an arbitrary function, leaving all other elements alone.  Used to state that
the validator never reads those values. -/
def textValueUpdate (f : Element → String) (el : Element) : Element :=
  if el.required = true ∧ isTextType el = true then { el with value := f el } else el

/-! ## Helper lemmas -/

theorem getKey_delKey (fd : List (String × JsVal)) (k k2 : String) :
    getKey (delKey fd k) k2 = if k2 = k then none else getKey fd k2 := by
  induction fd with
  | nil => simp [getKey, delKey]
  | cons p rest ih =>
    by_cases h1 : p.1 = k
    · by_cases h2 : k2 = k
      · subst h2
        simp [getKey, delKey, h1, ih]
      · have h4 : ¬ (k = k2) := fun he => h2 he.symm
        simp [getKey, delKey, h1, h2, h4, ih]
    · by_cases h3 : p.1 = k2
      · have h2 : ¬ (k2 = k) := fun he => h1 (h3.trans he)
        simp [getKey, delKey, h1, h2, h3]
      · simp [getKey, delKey, h1, h3, ih]

theorem getKey_setKey (fd : List (String × JsVal)) (k k2 : String) (v : JsVal) :
    getKey (setKey fd k v) k2 = if k2 = k then some v else getKey fd k2 := by
  induction fd with
  | nil =>
    by_cases h2 : k2 = k
    · simp [getKey, setKey, h2]
    · have h4 : ¬ (k = k2) := fun he => h2 he.symm
      simp [getKey, setKey, h2, h4]
  | cons p rest ih =>
    by_cases h1 : p.1 = k
    · by_cases h2 : k2 = k
      · simp [getKey, setKey, h1, h2]
      · have h4 : ¬ (k = k2) := fun he => h2 he.symm
        have h3 : ¬ (p.1 = k2) := fun he => h2 (he.symm.trans h1)
        simp [getKey, setKey, h1, h2, h3, h4]
    · by_cases h3 : p.1 = k2
      · have h2 : ¬ (k2 = k) := fun he => h1 (h3.trans he)
        simp [getKey, setKey, h1, h2, h3]
      · simp [getKey, setKey, h1, h3, ih]

/-- When both raw fields parse as positive numbers, `handleSubmit` stores
the BMI and then deletes the raw fields. -/
theorem handleSubmitPayload_of_pos (fd : List (String × JsVal)) (h w : ℚ)
    (hh : parseOf (getKey fd "height_cm") = some h)
    (hw : parseOf (getKey fd "weight_kg") = some w)
    (h0 : 0 < h) (w0 : 0 < w) :
    handleSubmitPayload fd =
      delKey (delKey (setKey fd "BMI" (JsVal.num (bmiValue h w))) "height_cm") "weight_kg" := by
  unfold handleSubmitPayload
  rw [hh, hw]
  simp only [if_pos (And.intro h0 w0)]

/-- When the positivity guard fails, `handleSubmit` only deletes the raw
fields. -/
theorem handleSubmitPayload_of_neg (fd : List (String × JsVal))
    (hguard : jsPos (parseOf (getKey fd "height_cm")) = false
        ∨ jsPos (parseOf (getKey fd "weight_kg")) = false) :
    handleSubmitPayload fd = delKey (delKey fd "height_cm") "weight_kg" := by
  unfold handleSubmitPayload
  cases hh : parseOf (getKey fd "height_cm") with
  | none => rfl
  | some h =>
    cases hw : parseOf (getKey fd "weight_kg") with
    | none => rfl
    | some w =>
      rw [hh, hw] at hguard
      have : ¬ (0 < h ∧ 0 < w) := by
        intro hc
        rcases hguard with hg | hg <;> simp [jsPos, hc.1, hc.2] at hg
      simp only [if_neg this]

theorem rat_floor_eq_int_floor (q : ℚ) : q.floor = ⌊q⌋ := rfl

/-! ## Claims about the framework-based submit handler -/

/-- Claim C2: in the framework-based submit handler, whenever both `height_cm` and
`weight_kg` parse as positive numbers, the computed field `BMI` equals
`weight_kg / (height_cm/100)^2` rounded to one decimal place; in particular
for `height_cm = 180` and `weight_kg = 80` the computed BMI is `24.7`. -/
theorem c2_bmi_field (fd : List (String × JsVal)) (h w : ℚ)
    (hh : parseOf (getKey fd "height_cm") = some h)
    (hw : parseOf (getKey fd "weight_kg") = some w)
    (h0 : 0 < h) (w0 : 0 < w) :
    getKey (handleSubmitPayload fd) "BMI"
      = some (JsVal.num (roundTo1 (w / (h / 100) ^ 2)))
    ∧ bmiValue 180 80 = 247 / 10 := by
  constructor
  · rw [handleSubmitPayload_of_pos fd h w hh hw h0 w0, getKey_delKey,
      if_neg (by decide : ¬ ("BMI" = "weight_kg")), getKey_delKey,
      if_neg (by decide : ¬ ("BMI" = "height_cm")), getKey_setKey, if_pos rfl]
    unfold bmiValue
    rw [pow_two]
  · unfold bmiValue roundTo1
    rw [rat_floor_eq_int_floor]
    norm_num

/-- Witness for C2 at a concrete submission with height 180 and weight 80. -/
theorem c2_bmi_field_witness :
    getKey (handleSubmitPayload
        [("gender", JsVal.nonNum), ("height_cm", JsVal.num 180), ("weight_kg", JsVal.num 80)])
      "BMI" = some (JsVal.num (roundTo1 (80 / ((180 : ℚ) / 100) ^ 2))) :=
  (c2_bmi_field
    [("gender", JsVal.nonNum), ("height_cm", JsVal.num 180), ("weight_kg", JsVal.num 80)]
    180 80 rfl rfl (by norm_num) (by norm_num)).1

/-- Claim C3: for every submitted form-data mapping whose raw height and weight
parse as positive numbers, the JSON body of the `POST /api/predict` request
contains every field of the form data except `height_cm` and `weight_kg`,
plus the computed `BMI` field, and no field other than these three is added,
removed, or changed. -/
theorem c3_payload_frame (fd : List (String × JsVal)) (h w : ℚ)
    (hh : parseOf (getKey fd "height_cm") = some h)
    (hw : parseOf (getKey fd "weight_kg") = some w)
    (h0 : 0 < h) (w0 : 0 < w) :
    getKey (handleSubmitPayload fd) "height_cm" = none
    ∧ getKey (handleSubmitPayload fd) "weight_kg" = none
    ∧ getKey (handleSubmitPayload fd) "BMI" = some (JsVal.num (bmiValue h w))
    ∧ ∀ k, ¬ (k = "height_cm") → ¬ (k = "weight_kg") → ¬ (k = "BMI") →
        getKey (handleSubmitPayload fd) k = getKey fd k := by
  rw [handleSubmitPayload_of_pos fd h w hh hw h0 w0]
  refine ⟨?_, ?_, ?_, ?_⟩
  · rw [getKey_delKey, if_neg (by decide : ¬ ("height_cm" = "weight_kg")),
      getKey_delKey, if_pos rfl]
  · rw [getKey_delKey, if_pos rfl]
  · rw [getKey_delKey, if_neg (by decide : ¬ ("BMI" = "weight_kg")),
      getKey_delKey, if_neg (by decide : ¬ ("BMI" = "height_cm")),
      getKey_setKey, if_pos rfl]
  · intro k hk1 hk2 hk3
    rw [getKey_delKey, if_neg hk2, getKey_delKey, if_neg hk1, getKey_setKey, if_neg hk3]

/-- Witness for C3: on a concrete submission the raw fields are gone and an
untouched field survives unchanged. -/
theorem c3_payload_frame_witness :
    getKey (handleSubmitPayload
        [("gender", JsVal.num 1), ("height_cm", JsVal.num 160), ("weight_kg", JsVal.num 64)])
      "height_cm" = none
    ∧ getKey (handleSubmitPayload
        [("gender", JsVal.num 1), ("height_cm", JsVal.num 160), ("weight_kg", JsVal.num 64)])
      "gender"
      = getKey [("gender", JsVal.num 1), ("height_cm", JsVal.num 160), ("weight_kg", JsVal.num 64)]
          "gender" := by
  have hc := c3_payload_frame
    [("gender", JsVal.num 1), ("height_cm", JsVal.num 160), ("weight_kg", JsVal.num 64)]
    160 64 rfl rfl (by norm_num) (by norm_num)
  exact ⟨hc.1, hc.2.2.2 "gender" (by decide) (by decide) (by decide)⟩

/-- Claim C10 as frozen is refuted by a form-data record that itself already holds
a `BMI` field: when the positivity guard fails nothing is written to or
deleted from `BMI`, so the pre-existing binding survives into the payload. -/
theorem c10_counterexample :
    jsPos (parseOf (getKey
        [("BMI", JsVal.num 5), ("height_cm", JsVal.nonNum), ("weight_kg", JsVal.num 70)]
        "height_cm")) = false
    ∧ getKey (handleSubmitPayload
        [("BMI", JsVal.num 5), ("height_cm", JsVal.nonNum), ("weight_kg", JsVal.num 70)])
      "BMI" = some (JsVal.num 5) :=
  ⟨rfl, rfl⟩

/-- Claim C10 (amended): `height_cm` and `weight_kg` are deleted from the payload
unconditionally, even when the BMI is not computed; and provided the
submitted form data itself carries no `BMI` field, a submission on which the
positivity guard fails produces a payload with neither `height_cm`, nor
`weight_kg`, nor any `BMI` field. -/
theorem c10_unconditional_delete (fd : List (String × JsVal))
    (hguard : jsPos (parseOf (getKey fd "height_cm")) = false
        ∨ jsPos (parseOf (getKey fd "weight_kg")) = false)
    (hbmi : getKey fd "BMI" = none) :
    getKey (handleSubmitPayload fd) "height_cm" = none
    ∧ getKey (handleSubmitPayload fd) "weight_kg" = none
    ∧ getKey (handleSubmitPayload fd) "BMI" = none := by
  rw [handleSubmitPayload_of_neg fd hguard]
  refine ⟨?_, ?_, ?_⟩
  · rw [getKey_delKey, if_neg (by decide : ¬ ("height_cm" = "weight_kg")),
      getKey_delKey, if_pos rfl]
  · rw [getKey_delKey, if_pos rfl]
  · rw [getKey_delKey, if_neg (by decide : ¬ ("BMI" = "weight_kg")),
      getKey_delKey, if_neg (by decide : ¬ ("BMI" = "height_cm"))]
    exact hbmi

/-- Witness for the amended C10 at a concrete guard-failing submission. -/
theorem c10_unconditional_delete_witness :
    getKey (handleSubmitPayload [("height_cm", JsVal.nonNum), ("weight_kg", JsVal.num 70)])
      "BMI" = none :=
  (c10_unconditional_delete [("height_cm", JsVal.nonNum), ("weight_kg", JsVal.num 70)]
    (Or.inl rfl) rfl).2.2

/-! ## Navigator lemmas -/

theorem applyHidden_length (l : List FormSection) (i : Nat) (n : Int) :
    (applyHidden l i n).length = l.length := by
  induction l generalizing i with
  | nil => rfl
  | cons s rest ih => simp [applyHidden, ih]

theorem applyHidden_get (l : List FormSection) (i : Nat) (n : Int) (j : Nat)
    (hj : j < (applyHidden l i n).length) (hj2 : j < l.length) :
    (applyHidden l i n).get ⟨j, hj⟩
      = { l.get ⟨j, hj2⟩ with hidden := decide (((i + j : Nat) : Int) ≠ n) } := by
  induction l generalizing i j with
  | nil => cases hj2
  | cons s rest ih =>
    cases j with
    | zero => simp [applyHidden]
    | succ j =>
      have hj3 : j < (applyHidden rest (i + 1) n).length := by
        rw [applyHidden_length]
        exact Nat.lt_of_succ_lt_succ hj2
      have harith : (i + 1) + j = i + (j + 1) := by omega
      calc (applyHidden (s :: rest) i n).get ⟨j + 1, hj⟩
          = (applyHidden rest (i + 1) n).get ⟨j, hj3⟩ := rfl
        _ = { rest.get ⟨j, Nat.lt_of_succ_lt_succ hj2⟩ with
              hidden := decide ((((i + 1) + j : Nat) : Int) ≠ n) } :=
            ih (i + 1) j hj3 (Nat.lt_of_succ_lt_succ hj2)
        _ = { (s :: rest).get ⟨j + 1, hj2⟩ with
              hidden := decide (((i + (j + 1) : Nat) : Int) ≠ n) } := by rw [harith]; rfl

theorem showSection_eq_some (st : AppState) (n : Int) (st2 : AppState) :
    showSection st n = some st2 ↔
      (0 ≤ n ∧ n < (st.sections.length : Int))
      ∧ st2 = { sections := applyHidden st.sections 0 n, currentSection := n } := by
  unfold showSection
  by_cases hc : 0 ≤ n ∧ n < (st.sections.length : Int)
  · simp [hc, eq_comm]
  · simp [hc]

/-! ## Claims about the script-based navigator -/

/-- Claim C6: for every section index `n` with `0 ≤ n <` total, after
`showSection(n)` exactly section `n` is visible (every other section has the
`hidden` class) and `currentSection` equals `n`. -/
theorem c6_showSection_exactly_one_visible (st : AppState) (n : Int)
    (h0 : 0 ≤ n) (h1 : n < (st.sections.length : Int)) :
    ∃ st2, showSection st n = some st2
      ∧ st2.currentSection = n
      ∧ st2.sections.length = st.sections.length
      ∧ ∀ j (hj : j < st2.sections.length),
          ((st2.sections.get ⟨j, hj⟩).hidden = false ↔ (j : Int) = n) := by
  refine ⟨{ sections := applyHidden st.sections 0 n, currentSection := n }, ?_, rfl, ?_, ?_⟩
  · rw [showSection_eq_some]
    exact ⟨⟨h0, h1⟩, rfl⟩
  · exact applyHidden_length st.sections 0 n
  · intro j hj
    have hj2 : j < st.sections.length := by
      rw [← applyHidden_length st.sections 0 n]
      exact hj
    rw [applyHidden_get st.sections 0 n j hj hj2]
    simp [decide_eq_false_iff_not, not_not]

/-- Witness for C6 on a two-section document, showing section 1. -/
theorem c6_showSection_witness :
    ∃ st2, showSection ⟨[⟨[], false⟩, ⟨[], true⟩], 0⟩ 1 = some st2
      ∧ st2.currentSection = 1
      ∧ st2.sections.length = (⟨[⟨[], false⟩, ⟨[], true⟩], 0⟩ : AppState).sections.length
      ∧ ∀ j (hj : j < st2.sections.length),
          ((st2.sections.get ⟨j, hj⟩).hidden = false ↔ (j : Int) = 1) :=
  c6_showSection_exactly_one_visible ⟨[⟨[], false⟩, ⟨[], true⟩], 0⟩ 1 (by decide) (by decide)

/-- Claim C7: after every navigation update, the previous button is hidden iff the
current section index is 0, the next button is hidden iff the current
section is the last, and the submit button is visible iff the current
section is the last. -/
theorem c7_button_visibility (cs : Int) (total : Nat)
    (h0 : 0 ≤ cs) (h1 : cs < (total : Int)) :
    ((updateButtons cs total).prev = "none" ↔ cs = 0)
    ∧ ((updateButtons cs total).next = "none" ↔ cs = (total : Int) - 1)
    ∧ ((updateButtons cs total).submit = "inline-flex" ↔ cs = (total : Int) - 1) := by
  have hne : ("inline-flex" : String) ≠ "none" := by decide
  have hne2 : ("none" : String) ≠ "inline-flex" := by decide
  unfold updateButtons
  refine ⟨?_, ?_, ?_⟩
  · by_cases h : 0 < cs
    · rw [if_pos h]
      simp only [hne, false_iff]
      omega
    · rw [if_neg h]
      simp only [true_iff]
      omega
  · by_cases h : cs < (total : Int) - 1
    · rw [if_pos h]
      simp only [hne, false_iff]
      omega
    · rw [if_neg h]
      simp only [true_iff]
      omega
  · by_cases h : cs = (total : Int) - 1
    · rw [if_pos h]
      simp only [true_iff]
      exact h
    · rw [if_neg h]
      simp only [hne2, false_iff]
      exact h

/-- Witness for C7 at section 0 of a three-section form. -/
theorem c7_button_visibility_witness :
    ((updateButtons 0 3).prev = "none" ↔ (0 : Int) = 0)
    ∧ ((updateButtons 0 3).next = "none" ↔ (0 : Int) = (3 : Int) - 1)
    ∧ ((updateButtons 0 3).submit = "inline-flex" ↔ (0 : Int) = (3 : Int) - 1) :=
  c7_button_visibility 0 3 (by decide) (by decide)

/-- Claim C5: if validation of the active section fails then a next-button click
leaves the state (hence `currentSection` and the visible section) unchanged
and fires the alert; the advance to `currentSection + 1` happens only when
validation succeeds. -/
theorem c5_next_guarded_by_validation (st : AppState) :
    (∀ sec, sectionAt st = some sec → validateSection sec.elements = false →
        nextClick st = some (st, true))
    ∧ (∀ st2, nextClick st = some (st2, false) →
        (∃ sec, sectionAt st = some sec ∧ validateSection sec.elements = true)
        ∧ st2.currentSection = st.currentSection + 1) := by
  constructor
  · intro sec hsec hval
    unfold nextClick
    rw [hsec, Option.some_bind, if_neg (by rw [hval]; exact Bool.false_ne_true)]
  · intro st2 hclick
    unfold nextClick at hclick
    cases hsec : sectionAt st with
    | none =>
      rw [hsec, Option.none_bind] at hclick
      exact absurd hclick (by simp)
    | some sec =>
      rw [hsec, Option.some_bind] at hclick
      by_cases hval : validateSection sec.elements
      · rw [if_pos hval] at hclick
        cases hshow : showSection st (st.currentSection + 1) with
        | none =>
          rw [hshow] at hclick
          exact absurd hclick (by simp)
        | some st3 =>
          rw [hshow, Option.map_some'] at hclick
          have hst : st3 = st2 := congrArg Prod.fst (Option.some.inj hclick)
          obtain ⟨-, hval2⟩ := (showSection_eq_some st (st.currentSection + 1) st3).mp hshow
          refine ⟨⟨sec, rfl, hval⟩, ?_⟩
          rw [← hst, hval2]
      · rw [if_neg hval] at hclick
        have := Option.some.inj hclick
        exact absurd (congrArg Prod.snd this) (by simp)

/-- Witness for C5: a section whose required radio group is unchecked blocks
the next-button click and fires the alert. -/
theorem c5_next_guarded_witness :
    nextClick ⟨[⟨[⟨"INPUT", "radio", "smoker", "", false, true⟩], false⟩, ⟨[], true⟩], 0⟩
      = some (⟨[⟨[⟨"INPUT", "radio", "smoker", "", false, true⟩], false⟩, ⟨[], true⟩], 0⟩, true) :=
  (c5_next_guarded_by_validation
      ⟨[⟨[⟨"INPUT", "radio", "smoker", "", false, true⟩], false⟩, ⟨[], true⟩], 0⟩).1
    ⟨[⟨"INPUT", "radio", "smoker", "", false, true⟩], false⟩ rfl (by decide)

/-- Claim C8: starting from the initial state (`showSection(0)` run by `init`),
the invariant `0 ≤ currentSection < section count` is preserved by every
transition of the navigator: next (guarded by validation success) and
previous (unconditional, clamped at 0). -/
theorem c8_invariant_preserved :
    (∀ st st0, showSection st 0 = some st0 → NavInv st0)
    ∧ (∀ st st2 b, NavInv st → nextClick st = some (st2, b) → NavInv st2)
    ∧ (∀ st st2, NavInv st → prevClick st = some st2 → NavInv st2) := by
  have hshow : ∀ st n st2, showSection st n = some st2 → NavInv st2 := by
    intro st n st2 h
    obtain ⟨⟨h0, h1⟩, rfl⟩ := (showSection_eq_some st n st2).mp h
    refine ⟨h0, ?_⟩
    show n < ((applyHidden st.sections 0 n).length : Int)
    rw [applyHidden_length]
    exact h1
  refine ⟨?_, ?_, ?_⟩
  · intro st st0 h
    exact hshow st 0 st0 h
  · intro st st2 b hinv hclick
    unfold nextClick at hclick
    cases hsec : sectionAt st with
    | none =>
      rw [hsec, Option.none_bind] at hclick
      exact absurd hclick (by simp)
    | some sec =>
      rw [hsec, Option.some_bind] at hclick
      by_cases hval : validateSection sec.elements
      · rw [if_pos hval] at hclick
        cases hs2 : showSection st (st.currentSection + 1) with
        | none =>
          rw [hs2] at hclick
          exact absurd hclick (by simp)
        | some st3 =>
          rw [hs2, Option.map_some'] at hclick
          have hst : st3 = st2 := congrArg Prod.fst (Option.some.inj hclick)
          rw [← hst]
          exact hshow st (st.currentSection + 1) st3 hs2
      · rw [if_neg hval] at hclick
        have hst : st = st2 := congrArg Prod.fst (Option.some.inj hclick)
        rw [← hst]
        exact hinv
  · intro st st2 hinv hclick
    unfold prevClick at hclick
    exact hshow st _ st2 hclick

/-- Witness for C8: one validated next-click from section 0 of a
two-section form lands in a state satisfying the invariant. -/
theorem c8_invariant_witness :
    NavInv ⟨[⟨[], true⟩, ⟨[], false⟩], 1⟩ :=
  c8_invariant_preserved.2.1 ⟨[⟨[], false⟩, ⟨[], true⟩], 0⟩
    ⟨[⟨[], true⟩, ⟨[], false⟩], 1⟩ false (by decide) (by decide)

/-! ## Validator lemmas -/

theorem validateSection_eq_true_iff (sec : List Element) :
    validateSection sec = true
      ↔ ∀ el, el ∈ sec → el.required = true → elementOk sec el = true := by
  unfold validateSection
  rw [List.all_eq_true]
  constructor
  · intro hall el hmem hreq
    exact hall el (List.mem_filter.mpr ⟨hmem, hreq⟩)
  · intro hall el hmem
    obtain ⟨hm, hr⟩ := List.mem_filter.mp hmem
    exact hall el hm hr

theorem textValueUpdate_tag (f : Element → String) (el : Element) :
    (textValueUpdate f el).tag = el.tag := by
  unfold textValueUpdate
  split <;> rfl

theorem textValueUpdate_type (f : Element → String) (el : Element) :
    (textValueUpdate f el).type = el.type := by
  unfold textValueUpdate
  split <;> rfl

theorem textValueUpdate_name (f : Element → String) (el : Element) :
    (textValueUpdate f el).name = el.name := by
  unfold textValueUpdate
  split <;> rfl

theorem textValueUpdate_checked (f : Element → String) (el : Element) :
    (textValueUpdate f el).checked = el.checked := by
  unfold textValueUpdate
  split <;> rfl

theorem textValueUpdate_required (f : Element → String) (el : Element) :
    (textValueUpdate f el).required = el.required := by
  unfold textValueUpdate
  split <;> rfl

theorem textValueUpdate_eq_of_not_text (f : Element → String) (el : Element)
    (h : isTextType el = false) : textValueUpdate f el = el := by
  unfold textValueUpdate
  rw [if_neg]
  intro hc
  rw [h] at hc
  exact Bool.false_ne_true hc.2

theorem radioGroupChecked_map (sec : List Element) (f : Element → String)
    (gname : String) :
    radioGroupChecked (sec.map (textValueUpdate f)) gname
      = radioGroupChecked sec gname := by
  unfold radioGroupChecked
  have hp : (fun r => decide (r.tag = "INPUT" ∧ r.name = gname)) ∘ textValueUpdate f
      = fun r => decide (r.tag = "INPUT" ∧ r.name = gname) := by
    funext r
    simp [Function.comp, textValueUpdate_tag, textValueUpdate_name]
  have hq : ((fun r : Element => r.checked) ∘ textValueUpdate f)
      = fun r : Element => r.checked := by
    funext r
    simp [Function.comp, textValueUpdate_checked]
  rw [List.filter_map, hp, List.any_map, hq]

theorem elementOk_textValueUpdate (sec : List Element) (f : Element → String)
    (el : Element) :
    elementOk (sec.map (textValueUpdate f)) (textValueUpdate f el)
      = elementOk sec el := by
  unfold elementOk
  rw [textValueUpdate_type, textValueUpdate_tag, textValueUpdate_name,
    radioGroupChecked_map]
  by_cases h1 : el.type = "radio"
  · rw [if_pos h1, if_pos h1]
  · by_cases h2 : el.type = "number" ∨ el.tag = "SELECT"
    · have hnt : isTextType el = false := by
        rcases h2 with h2 | h2 <;> simp [isTextType, h2]
      rw [textValueUpdate_eq_of_not_text f el hnt]
    · rw [if_neg h1, if_neg h2, if_neg h1, if_neg h2]

/-! ## Claims about the script-based validator -/

/-- Claim C4: for every active section, (1) a required radio group with no member
checked makes validation return false; (2) when every required element —
the radio group now having a checked member — satisfies its check,
validation returns true; (3) a required numeric or select field whose
trimmed value is empty makes validation return false. -/
theorem c4_section_validation (sec : List Element) :
    (∀ el, el ∈ sec → el.required = true → el.type = "radio" →
        radioGroupChecked sec el.name = false → validateSection sec = false)
    ∧ ((∀ el, el ∈ sec → el.required = true → elementOk sec el = true) →
        validateSection sec = true)
    ∧ (∀ el, el ∈ sec → el.required = true → ¬ (el.type = "radio") →
        (el.type = "number" ∨ el.tag = "SELECT") → trimmedEmpty el.value = true →
        validateSection sec = false) := by
  refine ⟨?_, ?_, ?_⟩
  · intro el hmem hreq htype hgroup
    apply Bool.eq_false_iff.mpr
    intro htrue
    have hok := (validateSection_eq_true_iff sec).mp htrue el hmem hreq
    unfold elementOk at hok
    rw [if_pos htype, hgroup] at hok
    exact Bool.false_ne_true hok
  · intro hall
    exact (validateSection_eq_true_iff sec).mpr hall
  · intro el hmem hreq hnr htype hempty
    apply Bool.eq_false_iff.mpr
    intro htrue
    have hok := (validateSection_eq_true_iff sec).mp htrue el hmem hreq
    unfold elementOk at hok
    rw [if_neg hnr, if_pos htype, hempty] at hok
    exact Bool.false_ne_true hok

/-- Witness for C4: a section whose required radio group is unchecked fails,
checking one option makes it pass, and a required number input holding only
a space fails. -/
theorem c4_section_validation_witness :
    validateSection
        [⟨"INPUT", "radio", "smoker", "", false, true⟩,
         ⟨"INPUT", "radio", "smoker", "", false, false⟩] = false
    ∧ validateSection
        [⟨"INPUT", "radio", "smoker", "", false, true⟩,
         ⟨"INPUT", "radio", "smoker", "", true, false⟩] = true
    ∧ validateSection [⟨"INPUT", "number", "age", " ", false, true⟩] = false := by
  refine ⟨?_, ?_, ?_⟩
  · exact (c4_section_validation _).1 ⟨"INPUT", "radio", "smoker", "", false, true⟩
      (by decide) rfl rfl (by decide)
  · exact (c4_section_validation _).2.1 (by decide)
  · exact (c4_section_validation _).2.2 ⟨"INPUT", "number", "age", " ", false, true⟩
      (by decide) rfl (by decide) (Or.inl rfl) (by decide)

/-- Claim C9: required fields whose type is not radio, number, or select are never
checked by the script-based validator: the validation result is unchanged
under arbitrary rewriting of the values of required text-type inputs, and a
section whose required elements are all text-type validates as true. -/
theorem c9_text_fields_unchecked :
    (∀ (sec : List Element) (f : Element → String),
        validateSection (sec.map (textValueUpdate f)) = validateSection sec)
    ∧ (∀ sec : List Element,
        (∀ el, el ∈ sec → el.required = true → isTextType el = true) →
        validateSection sec = true) := by
  constructor
  · intro sec f
    unfold validateSection
    have hreq : (fun el : Element => el.required) ∘ textValueUpdate f
        = fun el : Element => el.required := by
      funext el
      simp [Function.comp, textValueUpdate_required]
    have hok : (fun el => elementOk (sec.map (textValueUpdate f)) el) ∘ textValueUpdate f
        = fun el => elementOk sec el := by
      funext el
      exact elementOk_textValueUpdate sec f el
    rw [List.filter_map, hreq, List.all_map, hok]
  · intro sec hall
    apply (validateSection_eq_true_iff sec).mpr
    intro el hmem hreq
    have ht := of_decide_eq_true (hall el hmem hreq)
    unfold elementOk
    rw [if_neg ht.1, if_neg (fun hc => hc.elim ht.2.1 ht.2.2)]

/-- Witness for C9: a section whose single required element is a text input
validates as true, and rewriting that text value changes nothing. -/
theorem c9_text_fields_witness :
    validateSection ([⟨"INPUT", "text", "fname", "", false, true⟩].map
        (textValueUpdate fun _ => "filled"))
      = validateSection [⟨"INPUT", "text", "fname", "", false, true⟩]
    ∧ validateSection [⟨"INPUT", "text", "fname", "", false, true⟩] = true :=
  ⟨c9_text_fields_unchecked.1 _ _, c9_text_fields_unchecked.2 _ (by decide)⟩

/-! ## Claim about the submit handler's response handling -/

/-- Claim C1: the handler renders the results view with exactly the parsed JSON
response body if and only if the response arrived with a 2xx status and a
parseable body; on a non-2xx status, a network error, or a body-parse
failure it alerts, logs to the console, and leaves `results` null. -/
theorem c1_response_handling (α : Type) (outcome : Option (FetchResponse α)) :
    (∀ d : α, (handleSubmitResponse outcome).results = some d ↔
        ∃ resp, outcome = some resp ∧ respOk resp.status = true ∧ resp.jsonBody = some d)
    ∧ (∀ resp, outcome = some resp → respOk resp.status = false →
        (handleSubmitResponse outcome).results = none
        ∧ (handleSubmitResponse outcome).alerted = true
        ∧ (handleSubmitResponse outcome).logged = true)
    ∧ (outcome = none →
        (handleSubmitResponse outcome).results = none
        ∧ (handleSubmitResponse outcome).alerted = true
        ∧ (handleSubmitResponse outcome).logged = true)
    ∧ ((handleSubmitResponse outcome).results = none →
        (handleSubmitResponse outcome).alerted = true
        ∧ (handleSubmitResponse outcome).logged = true) := by
  cases outcome with
  | none => simp [handleSubmitResponse]
  | some resp =>
    by_cases hok : respOk resp.status = true
    · cases hbody : resp.jsonBody with
      | none => simp [handleSubmitResponse, hok, hbody]
      | some d => simp [handleSubmitResponse, hok, hbody]
    · have hok2 : respOk resp.status = false := Bool.eq_false_iff.mpr hok
      simp [handleSubmitResponse, hok2]

/-- Witness for C1: a 200 response with parsed body 42 renders exactly 42;
a 500 response leaves `results` null and alerts. -/
theorem c1_response_handling_witness :
    (handleSubmitResponse (some (⟨200, some 42⟩ : FetchResponse Nat))).results = some 42
    ∧ (handleSubmitResponse (some (⟨500, some 42⟩ : FetchResponse Nat))).results = none
    ∧ (handleSubmitResponse (some (⟨500, some 42⟩ : FetchResponse Nat))).alerted = true := by
  refine ⟨?_, ?_, ?_⟩
  · exact ((c1_response_handling Nat (some ⟨200, some 42⟩)).1 42).mpr
      ⟨⟨200, some 42⟩, rfl, by decide, rfl⟩
  · exact ((c1_response_handling Nat (some ⟨500, some 42⟩)).2.1 ⟨500, some 42⟩ rfl
      (by decide)).1
  · exact ((c1_response_handling Nat (some ⟨500, some 42⟩)).2.1 ⟨500, some 42⟩ rfl
      (by decide)).2.1

end DiabetesWeb
